import Mathlib

/-!
Verification of the Cline NousResearch provider adapter
(`src/core/api/providers/nousresearch.ts`) and the network transport
configuration module (`src/shared/net.ts`), via a shallow embedding of
their data model and operations in Lean.

JavaScript truthiness conditions (`if (x)`) on optional strings are
embedded as "present and non-empty"; optional fields become `Option`.
-/

set_option autoImplicit false

namespace Cline

/-! ## Stream event protocol (`ApiStream` chunk vocabulary)

The events yielded by `createMessage`: incremental text, incremental
reasoning, and token-usage reports. -/

/-- A normalized stream event, as yielded by `createMessage`. -/
inductive ApiStreamChunk where
  | text (text : String)
  | reasoning (reasoning : String)
  | usage (inputTokens : Nat) (outputTokens : Nat)
  deriving DecidableEq, Repr

/-! ## Inbound wire chunks (OpenAI streaming chat-completion shape)

A chunk carries `choices[0].delta.{content?, reasoning_content?}` and
optionally `usage.{prompt_tokens, completion_tokens}`. Fields that may be
absent (or `null`, which the code treats identically through truthiness
checks) are `Option`. -/

/-- The `delta` object of a streamed choice. `content` and
`reasoning_content` may each be absent. -/
structure Delta where
  content : Option String := none
  reasoning_content : Option String := none
  deriving DecidableEq, Repr

/-- One element of a chunk's `choices` array; its `delta` may be absent. -/
structure Choice where
  delta : Option Delta := none
  deriving DecidableEq, Repr

/-- The `usage` object of a chunk; token fields may be absent. -/
structure Usage where
  prompt_tokens : Option Nat := none
  completion_tokens : Option Nat := none
  deriving DecidableEq, Repr

/-- An inbound streaming chunk: a `choices` array and optional `usage`. -/
structure Chunk where
  choices : List Choice := []
  usage : Option Usage := none
  deriving DecidableEq, Repr

/-- `chunk.choices[0]?.delta`: the delta of the first choice, if any. -/
def deltaOf (chunk : Chunk) : Option Delta :=
  chunk.choices.head?.bind Choice.delta

/-- Events from `if (delta?.content) yield {type:"text", text: delta.content}`:
a text event exactly when the first choice's delta has a truthy (present,
non-empty) `content`. -/
def textEvents (chunk : Chunk) : List ApiStreamChunk :=
  match deltaOf chunk with
  | some d =>
    match d.content with
    | some s => if s = "" then [] else [ApiStreamChunk.text s]
    | none => []
  | none => []

/-- Events from
`if (delta && "reasoning_content" in delta && delta.reasoning_content) yield {type:"reasoning", ...}`:
a reasoning event exactly when the delta carries a truthy (present,
non-empty) `reasoning_content`. -/
def reasoningEvents (chunk : Chunk) : List ApiStreamChunk :=
  match deltaOf chunk with
  | some d =>
    match d.reasoning_content with
    | some s => if s = "" then [] else [ApiStreamChunk.reasoning s]
    | none => []
  | none => []

/-- Events from `if (chunk.usage) yield {type:"usage", inputTokens: chunk.usage.prompt_tokens || 0, outputTokens: chunk.usage.completion_tokens || 0}`. -/
def usageEvents (chunk : Chunk) : List ApiStreamChunk :=
  match chunk.usage with
  | some u => [ApiStreamChunk.usage (u.prompt_tokens.getD 0) (u.completion_tokens.getD 0)]
  | none => []

/-- The events yielded for one inbound chunk, in the order of the three
`if` statements in the loop body of `createMessage`. -/
def chunkEvents (chunk : Chunk) : List ApiStreamChunk :=
  textEvents chunk ++ reasoningEvents chunk ++ usageEvents chunk

/-- The events yielded by the `for await (const chunk of stream)` loop over
the whole inbound chunk sequence, in arrival order. -/
def streamEvents : List Chunk → List ApiStreamChunk
  | [] => []
  | c :: rest => chunkEvents c ++ streamEvents rest

/-! ## Provider options, client, model resolution -/

/-- `NousresearchHandlerOptions`: both fields optional. -/
structure NousresearchHandlerOptions where
  nousResearchApiKey : Option String := none
  apiModelId : Option String := none
  deriving DecidableEq, Repr

/-- The OpenAI client handle constructed by `ensureClient`. -/
structure OpenAIClient where
  baseURL : String
  apiKey : String
  deriving DecidableEq, Repr

/-- `ensureClient`: return the cached client if present; otherwise require
a truthy API key (absent or empty string throws
"NousResearch API key is required") and build the client against the fixed
base URL. -/
def ensureClient (options : NousresearchHandlerOptions) (client : Option OpenAIClient) :
    Except String OpenAIClient :=
  match client with
  | some c => Except.ok c
  | none =>
    match options.nousResearchApiKey with
    | none => Except.error "NousResearch API key is required"
    | some k =>
      if k = "" then Except.error "NousResearch API key is required"
      else Except.ok { baseURL := "https://inference-api.nousresearch.com/v1", apiKey := k }

/-- Modelled from the spec: `ModelInfo` from `@shared/api` (not under
`src/`) — static descriptive metadata for a model, looked up and never
mutated. Its concrete fields do not matter to any claim. -/
structure ModelInfo where
  description : String := ""
  deriving DecidableEq, Repr

/-- `getModel`: if `options.apiModelId` is truthy and a key of the static
model mapping, return that id with its mapped info, else return the
provider default. The mapping `nousresearchModels` and the default id live
in `@shared/api` (not under `src/`), so they are passed in as an
association list `models`, the default id, and the default's info
(TypeScript's typing guarantees the default is a key of the mapping). -/
def getModel (models : List (String × ModelInfo)) (defaultId : String)
    (defaultInfo : ModelInfo) (options : NousresearchHandlerOptions) :
    String × ModelInfo :=
  match options.apiModelId with
  | some modelId =>
    if modelId = "" then (defaultId, defaultInfo)
    else
      match models.lookup modelId with
      | some info => (modelId, info)
      | none => (defaultId, defaultInfo)
  | none => (defaultId, defaultInfo)

/-! ## Outbound request assembly -/

/-- An Anthropic `MessageParam` of the conversation history, with string
content (the shape exercised by the spec). -/
structure MessageParam where
  role : String
  content : String
  deriving DecidableEq, Repr

/-- An OpenAI `{role, content}` chat message. -/
structure OpenAiMessage where
  role : String
  content : String
  deriving DecidableEq, Repr

/-- Modelled from the spec: `convertToOpenAiMessages` from
`../transform/openai-format` (not under `src/`) — translates the Anthropic
history into OpenAI `{role, content}` messages, preserving order, role and
string content. -/
def convertToOpenAiMessages (messages : List MessageParam) : List OpenAiMessage :=
  messages.map fun m => { role := m.role, content := m.content }

/-- The body of the streaming chat-completion request issued by
`createMessage`: `{model, messages, temperature, stream: true,
stream_options: {include_usage: true}}`. -/
structure CompletionRequest where
  model : String
  messages : List OpenAiMessage
  temperature : Nat
  stream : Bool
  include_usage : Bool
  deriving DecidableEq, Repr

/-- `createMessage`: resolve the client (failing before any request when
the API key is missing), resolve the model, assemble the outbound message
list (system prompt first, then the translated history), issue the
streaming request, and translate the backend's chunks into events.
The result records the single request issued together with the events
yielded; an error carries no request, since the throw happens before the
request is built or sent. -/
def createMessage (options : NousresearchHandlerOptions) (client : Option OpenAIClient)
    (models : List (String × ModelInfo)) (defaultId : String) (defaultInfo : ModelInfo)
    (systemPrompt : String) (messages : List MessageParam) (backend : List Chunk) :
    Except String (CompletionRequest × List ApiStreamChunk) := do
  let _client ← ensureClient options client
  let model := getModel models defaultId defaultInfo options
  let openAiMessages : List OpenAiMessage :=
    { role := "system", content := systemPrompt } :: convertToOpenAiMessages messages
  let request : CompletionRequest :=
    { model := model.1
      messages := openAiMessages
      temperature := 0
      stream := true
      include_usage := true }
  pure (request, streamEvents backend)

/-- The network requests observed for one `createMessage` call: one when
the call reached the backend, none when it failed beforehand. -/
def issuedRequests (r : Except String (CompletionRequest × List ApiStreamChunk)) :
    List CompletionRequest :=
  match r with
  | Except.ok (req, _) => [req]
  | Except.error _ => []

/-! ## Network transport configuration (`src/shared/net.ts`) -/

/-- The two candidate fetch implementations `net.ts` chooses between:
the platform's native global fetch, or undici's fetch routed through an
`EnvHttpProxyAgent` dispatcher. -/
inductive FetchImpl where
  | native
  | undici
  deriving DecidableEq, Repr

/-- The observable outcome of the module-initialization IIFE of `net.ts`:
whether a global dispatcher was installed, and which fetch was selected. -/
structure NetInitState where
  globalDispatcherSet : Bool
  selected : FetchImpl
  deriving DecidableEq, Repr

set_option linter.unusedVariables false in
/-- The module-initialization IIFE that produces the exported `fetch` of
`net.ts`, as a function of whether the host is VSCode. In the source the
VSCode-detection branch (`const isVSCode = ...; if (isVSCode) return
globalThis.fetch`) is commented out with a TODO, so regardless of the host
the code constructs an `EnvHttpProxyAgent`, installs it via
`setGlobalDispatcher`, and returns undici's fetch. -/
def selectFetch (isVSCode : Bool) : NetInitState :=
  { globalDispatcherSet := true, selected := FetchImpl.undici }

/-- The `fetch` value exported by `net.ts` for a given host environment. -/
def exportedFetch (isVSCode : Bool) : FetchImpl :=
  (selectFetch isVSCode).selected

/-- The configuration fragment returned by `getAxiosSettings`: both fields
are optional in its TypeScript return type `{adapter?; fetch?}`. -/
structure AxiosSettings where
  adapter : Option String := none
  fetch : Option FetchImpl := none
  deriving DecidableEq, Repr

/-- `getAxiosSettings`: returns `{adapter: "fetch", fetch}` where `fetch`
is the module's exported fetch. (It also logs the proxy variables through
`Logger.info`; the return value does not depend on that.) -/
def getAxiosSettings (isVSCode : Bool) : AxiosSettings :=
  { adapter := some "fetch", fetch := some (exportedFetch isVSCode) }

/-! ## Helper lemmas shared by the claim theorems -/

/-- A chunk in which no content, reasoning or usage field is set. -/
def Chunk.noFieldsSet (c : Chunk) : Bool :=
  (match deltaOf c with
   | none => true
   | some d => d.content.isNone && d.reasoning_content.isNone)
  && c.usage.isNone

theorem textEvents_delta_none (c : Chunk) (h : deltaOf c = none) :
    textEvents c = [] := by
  unfold textEvents
  rw [h]

theorem textEvents_delta_some (c : Chunk) (d : Delta) (h : deltaOf c = some d) :
    textEvents c =
      match d.content with
      | some s => if s = "" then [] else [ApiStreamChunk.text s]
      | none => [] := by
  unfold textEvents
  rw [h]

theorem reasoningEvents_delta_none (c : Chunk) (h : deltaOf c = none) :
    reasoningEvents c = [] := by
  unfold reasoningEvents
  rw [h]

theorem reasoningEvents_delta_some (c : Chunk) (d : Delta) (h : deltaOf c = some d) :
    reasoningEvents c =
      match d.reasoning_content with
      | some s => if s = "" then [] else [ApiStreamChunk.reasoning s]
      | none => [] := by
  unfold reasoningEvents
  rw [h]

theorem usageEvents_usage_none (c : Chunk) (h : c.usage = none) :
    usageEvents c = [] := by
  unfold usageEvents
  rw [h]

theorem usageEvents_usage_some (c : Chunk) (u : Usage) (h : c.usage = some u) :
    usageEvents c =
      [ApiStreamChunk.usage (u.prompt_tokens.getD 0) (u.completion_tokens.getD 0)] := by
  unfold usageEvents
  rw [h]

theorem chunkEvents_eq_nil_of_noFieldsSet (c : Chunk) (h : c.noFieldsSet = true) :
    chunkEvents c = [] := by
  unfold Chunk.noFieldsSet at h
  simp only [Bool.and_eq_true, Option.isNone_iff_eq_none] at h
  obtain ⟨h1, h2⟩ := h
  unfold chunkEvents
  rw [usageEvents_usage_none c h2]
  cases hd : deltaOf c with
  | none =>
    rw [textEvents_delta_none c hd, reasoningEvents_delta_none c hd]
    rfl
  | some d =>
    rw [hd] at h1
    simp only [Bool.and_eq_true, Option.isNone_iff_eq_none] at h1
    rw [textEvents_delta_some c d hd, reasoningEvents_delta_some c d hd, h1.1, h1.2]
    rfl

theorem text_empty_not_mem_chunkEvents (c : Chunk) :
    ApiStreamChunk.text "" ∉ chunkEvents c := by
  intro hmem
  simp only [chunkEvents, List.mem_append] at hmem
  rcases hmem with (h | h) | h
  · cases hd : deltaOf c with
    | none => rw [textEvents_delta_none c hd] at h; simp at h
    | some d =>
      rw [textEvents_delta_some c d hd] at h
      cases hc : d.content with
      | none => rw [hc] at h; simp at h
      | some s =>
        rw [hc] at h
        by_cases hs : s = ""
        · simp [hs] at h
        · simp [hs] at h
          exact hs h.symm
  · cases hd : deltaOf c with
    | none => rw [reasoningEvents_delta_none c hd] at h; simp at h
    | some d =>
      rw [reasoningEvents_delta_some c d hd] at h
      cases hr : d.reasoning_content with
      | none => rw [hr] at h; simp at h
      | some r =>
        rw [hr] at h
        by_cases hrr : r = ""
        · simp [hrr] at h
        · simp [hrr] at h
  · cases hu : c.usage with
    | none => rw [usageEvents_usage_none c hu] at h; simp at h
    | some u => rw [usageEvents_usage_some c u hu] at h; simp at h

theorem reasoning_empty_not_mem_chunkEvents (c : Chunk) :
    ApiStreamChunk.reasoning "" ∉ chunkEvents c := by
  intro hmem
  simp only [chunkEvents, List.mem_append] at hmem
  rcases hmem with (h | h) | h
  · cases hd : deltaOf c with
    | none => rw [textEvents_delta_none c hd] at h; simp at h
    | some d =>
      rw [textEvents_delta_some c d hd] at h
      cases hc : d.content with
      | none => rw [hc] at h; simp at h
      | some s =>
        rw [hc] at h
        by_cases hs : s = ""
        · simp [hs] at h
        · simp [hs] at h
  · cases hd : deltaOf c with
    | none => rw [reasoningEvents_delta_none c hd] at h; simp at h
    | some d =>
      rw [reasoningEvents_delta_some c d hd] at h
      cases hr : d.reasoning_content with
      | none => rw [hr] at h; simp at h
      | some r =>
        rw [hr] at h
        by_cases hrr : r = ""
        · simp [hrr] at h
        · simp [hrr] at h
          exact hrr h.symm
  · cases hu : c.usage with
    | none => rw [usageEvents_usage_none c hu] at h; simp at h
    | some u => rw [usageEvents_usage_some c u hu] at h; simp at h

theorem streamEvents_append (xs ys : List Chunk) :
    streamEvents (xs ++ ys) = streamEvents xs ++ streamEvents ys := by
  induction xs with
  | nil => rfl
  | cons c rest ih => simp [streamEvents, ih]

theorem getModel_id_none (models : List (String × ModelInfo)) (defaultId : String)
    (defaultInfo : ModelInfo) (key : Option String) :
    getModel models defaultId defaultInfo { nousResearchApiKey := key, apiModelId := none }
      = (defaultId, defaultInfo) := rfl

theorem getModel_id_some (models : List (String × ModelInfo)) (defaultId : String)
    (defaultInfo : ModelInfo) (key : Option String) (m : String) :
    getModel models defaultId defaultInfo { nousResearchApiKey := key, apiModelId := some m }
      = if m = "" then (defaultId, defaultInfo)
        else
          match models.lookup m with
          | some info => (m, info)
          | none => (defaultId, defaultInfo) := rfl

/-! ## The claims -/

/-- C1: an adapter constructed from options lacking an API key fails on the
first use of `createMessage` with the `ensureClient` error
"NousResearch API key is required", and no network request is ever issued:
the result is an error and the list of requests observed by the backend is
empty. -/
theorem C1_missing_key_fails_before_network (options : NousresearchHandlerOptions)
    (hkey : options.nousResearchApiKey = none)
    (models : List (String × ModelInfo)) (defaultId : String) (defaultInfo : ModelInfo)
    (systemPrompt : String) (messages : List MessageParam) (backend : List Chunk) :
    createMessage options none models defaultId defaultInfo systemPrompt messages backend
        = Except.error "NousResearch API key is required"
    ∧ issuedRequests
        (createMessage options none models defaultId defaultInfo systemPrompt messages backend)
        = [] := by
  have hcl : ensureClient options none = Except.error "NousResearch API key is required" := by
    unfold ensureClient
    rw [hkey]
  have hmain :
      createMessage options none models defaultId defaultInfo systemPrompt messages backend
        = Except.error "NousResearch API key is required" := by
    unfold createMessage
    rw [hcl]
    rfl
  exact ⟨hmain, by rw [hmain]; rfl⟩

/-- C1 witness: concrete instantiation at empty options. -/
theorem C1_missing_key_fails_before_network_witness :
    createMessage {} none [] "default" {} "sys" [] []
        = Except.error "NousResearch API key is required"
    ∧ issuedRequests (createMessage {} none [] "default" {} "sys" [] []) = [] :=
  C1_missing_key_fails_before_network {} rfl [] "default" {} "sys" [] []

/-- C2 counterexample: a chunk whose delta carries the content string `""`
(present, hence "carries a content string") produces no event at all — in
particular no text event equal to that delta — because the code's
truthiness guard `if (delta?.content)` rejects the empty string. -/
theorem C2_counterexample :
    deltaOf { choices := [{ delta := some { content := some "" } }] }
        = some { content := some "", reasoning_content := none }
    ∧ chunkEvents { choices := [{ delta := some { content := some "" } }] } = [] :=
  ⟨rfl, rfl⟩

/-- C2 (amended): for every inbound chunk, if the first choice's delta
carries a non-empty content string, a text event equal to exactly that
delta is emitted; if it carries a non-empty reasoning_content, a reasoning
event is emitted; and if the chunk carries usage, a usage event is emitted
whose inputTokens and outputTokens equal the chunk's prompt_tokens and
completion_tokens, each defaulting to 0 when absent, without failing. -/
theorem C2_chunk_translation (chunk : Chunk) :
    (∀ d s, deltaOf chunk = some d → d.content = some s → s ≠ "" →
        ApiStreamChunk.text s ∈ chunkEvents chunk)
    ∧ (∀ d s, deltaOf chunk = some d → d.reasoning_content = some s → s ≠ "" →
        ApiStreamChunk.reasoning s ∈ chunkEvents chunk)
    ∧ (∀ u, chunk.usage = some u →
        ApiStreamChunk.usage (u.prompt_tokens.getD 0) (u.completion_tokens.getD 0)
          ∈ chunkEvents chunk) := by
  refine ⟨?_, ?_, ?_⟩
  · intro d s hd hc hs
    simp only [chunkEvents, List.mem_append]
    left; left
    rw [textEvents_delta_some chunk d hd, hc]
    simp [hs]
  · intro d s hd hr hs
    simp only [chunkEvents, List.mem_append]
    left; right
    rw [reasoningEvents_delta_some chunk d hd, hr]
    simp [hs]
  · intro u hu
    simp only [chunkEvents, List.mem_append]
    right
    rw [usageEvents_usage_some chunk u hu]
    simp

/-- C2 witness: a chunk carrying all three payloads emits the matching
text, reasoning and usage events. -/
theorem C2_chunk_translation_witness :
    ApiStreamChunk.text "He" ∈ chunkEvents
        { choices := [{ delta := some { content := some "He", reasoning_content := some "why" } }],
          usage := some { prompt_tokens := some 5, completion_tokens := some 2 } }
    ∧ ApiStreamChunk.reasoning "why" ∈ chunkEvents
        { choices := [{ delta := some { content := some "He", reasoning_content := some "why" } }],
          usage := some { prompt_tokens := some 5, completion_tokens := some 2 } }
    ∧ ApiStreamChunk.usage 5 2 ∈ chunkEvents
        { choices := [{ delta := some { content := some "He", reasoning_content := some "why" } }],
          usage := some { prompt_tokens := some 5, completion_tokens := some 2 } } :=
  ⟨(C2_chunk_translation _).1 { content := some "He", reasoning_content := some "why" } "He"
      rfl rfl (by decide),
   (C2_chunk_translation _).2.1 { content := some "He", reasoning_content := some "why" } "why"
      rfl rfl (by decide),
   (C2_chunk_translation _).2.2 { prompt_tokens := some 5, completion_tokens := some 2 } rfl⟩

/-- C3: events are yielded in chunk-arrival order (`streamEvents`
distributes over concatenation of the inbound sequence, keeping each
chunk's events contiguous and in order); a chunk sequence in which no
chunk has a content, reasoning or usage field set yields zero events; and
no empty-string text or reasoning event is ever produced. -/
theorem C3_order_and_no_empty_events :
    (∀ xs ys : List Chunk, streamEvents (xs ++ ys) = streamEvents xs ++ streamEvents ys)
    ∧ (∀ chunks : List Chunk, (∀ c ∈ chunks, c.noFieldsSet = true) → streamEvents chunks = [])
    ∧ (∀ chunks : List Chunk,
        ApiStreamChunk.text "" ∉ streamEvents chunks
        ∧ ApiStreamChunk.reasoning "" ∉ streamEvents chunks) := by
  refine ⟨streamEvents_append, ?_, ?_⟩
  · intro chunks
    induction chunks with
    | nil => intro _; rfl
    | cons c rest ih =>
      intro h
      have hc := h c (List.mem_cons_self c rest)
      have hrest : ∀ x ∈ rest, x.noFieldsSet = true :=
        fun x hx => h x (List.mem_cons_of_mem c hx)
      simp [streamEvents, chunkEvents_eq_nil_of_noFieldsSet c hc, ih hrest]
  · intro chunks
    induction chunks with
    | nil => exact ⟨List.not_mem_nil _, List.not_mem_nil _⟩
    | cons c rest ih =>
      constructor
      · intro hmem
        rcases List.mem_append.mp
            (hmem : ApiStreamChunk.text "" ∈ chunkEvents c ++ streamEvents rest) with h | h
        · exact text_empty_not_mem_chunkEvents c h
        · exact ih.1 h
      · intro hmem
        rcases List.mem_append.mp
            (hmem : ApiStreamChunk.reasoning "" ∈ chunkEvents c ++ streamEvents rest) with h | h
        · exact reasoning_empty_not_mem_chunkEvents c h
        · exact ih.2 h

/-- C3 witness: concrete instantiations of the three conjuncts. -/
theorem C3_order_and_no_empty_events_witness :
    streamEvents ([{ choices := [{ delta := some { content := some "He" } }] }]
        ++ [{ usage := some { prompt_tokens := some 5 } }])
      = streamEvents [{ choices := [{ delta := some { content := some "He" } }] }]
        ++ streamEvents [{ usage := some { prompt_tokens := some 5 } }]
    ∧ streamEvents [({} : Chunk), { choices := [{ delta := some {} }] }] = []
    ∧ (ApiStreamChunk.text "" ∉ streamEvents [{ choices := [{ delta := some { content := some "He" } }] }]
       ∧ ApiStreamChunk.reasoning "" ∉ streamEvents [{ choices := [{ delta := some { content := some "He" } }] }]) :=
  ⟨C3_order_and_no_empty_events.1 _ _,
   C3_order_and_no_empty_events.2.1 _ (by decide),
   C3_order_and_no_empty_events.2.2 _⟩

/-- C4: `getModel` never raises and resolves as specified: an identifier
that is a (non-empty) key of the static model mapping is returned with
exactly its mapped info; an absent identifier resolves to the provider
default; and whenever the default id is a key of the mapping, the returned
pair is always a valid, known entry of the mapping. -/
theorem C4_getModel_resolution :
    (∀ (models : List (String × ModelInfo)) (defaultId : String) (defaultInfo : ModelInfo)
        (key : Option String) (m : String) (i : ModelInfo),
        m ≠ "" → models.lookup m = some i →
        getModel models defaultId defaultInfo { nousResearchApiKey := key, apiModelId := some m }
          = (m, i))
    ∧ (∀ (models : List (String × ModelInfo)) (defaultId : String) (defaultInfo : ModelInfo)
        (key : Option String),
        getModel models defaultId defaultInfo { nousResearchApiKey := key, apiModelId := none }
          = (defaultId, defaultInfo))
    ∧ (∀ (models : List (String × ModelInfo)) (defaultId : String) (defaultInfo : ModelInfo)
        (options : NousresearchHandlerOptions),
        models.lookup defaultId = some defaultInfo →
        models.lookup (getModel models defaultId defaultInfo options).1
          = some (getModel models defaultId defaultInfo options).2) := by
  refine ⟨?_, ?_, ?_⟩
  · intro models defaultId defaultInfo key m i hm hlookup
    rw [getModel_id_some, if_neg hm, hlookup]
  · intro models defaultId defaultInfo key
    rfl
  · intro models defaultId defaultInfo options hdef
    obtain ⟨key, mid⟩ := options
    cases mid with
    | none => exact hdef
    | some m =>
      rw [getModel_id_some]
      by_cases hm : m = ""
      · rw [if_pos hm]
        exact hdef
      · rw [if_neg hm]
        cases hl : models.lookup m with
        | none => exact hdef
        | some i => exact hl

/-- C4 witness: a present key resolves to its entry, an absent identifier
resolves to the default, and an unknown identifier still lands on a known
entry. -/
theorem C4_getModel_resolution_witness :
    getModel [("hermes", { description := "h" })] "hermes" { description := "h" }
        { nousResearchApiKey := none, apiModelId := some "hermes" }
      = ("hermes", { description := "h" })
    ∧ getModel [("hermes", { description := "h" })] "hermes" { description := "h" }
        { nousResearchApiKey := none, apiModelId := none }
      = ("hermes", { description := "h" })
    ∧ [("hermes", { description := "h" })].lookup
        (getModel [("hermes", { description := "h" })] "hermes" { description := "h" }
          { nousResearchApiKey := none, apiModelId := some "other" }).1
      = some (getModel [("hermes", { description := "h" })] "hermes" { description := "h" }
          { nousResearchApiKey := none, apiModelId := some "other" }).2 :=
  ⟨C4_getModel_resolution.1 [("hermes", { description := "h" })] "hermes" { description := "h" }
      none "hermes" { description := "h" } (by decide) rfl,
   C4_getModel_resolution.2.1 [("hermes", { description := "h" })] "hermes" { description := "h" }
      none,
   C4_getModel_resolution.2.2 [("hermes", { description := "h" })] "hermes" { description := "h" }
      { nousResearchApiKey := none, apiModelId := some "other" } rfl⟩

/-- C5: on the concrete scenario — system prompt "You are helpful",
history `[{role:"user", content:"hi"}]`, backend chunks
`{delta:{content:"He"}}`, `{delta:{content:"llo"}}`,
`{usage:{prompt_tokens:5, completion_tokens:2}}` — `createMessage` yields
exactly `text("He")`, `text("llo")`, `usage(5,2)` in that order. -/
theorem C5_concrete_scenario :
    (createMessage { nousResearchApiKey := some "key" } none
        [("model-a", { description := "a" })] "model-a" { description := "a" }
        "You are helpful" [{ role := "user", content := "hi" }]
        [{ choices := [{ delta := some { content := some "He" } }] },
         { choices := [{ delta := some { content := some "llo" } }] },
         { usage := some { prompt_tokens := some 5, completion_tokens := some 2 } }]).map Prod.snd
      = Except.ok [ApiStreamChunk.text "He", ApiStreamChunk.text "llo",
          ApiStreamChunk.usage 5 2] := by
  rfl

/-- C6: whenever the client resolves, `createMessage` issues exactly the
request `{model, messages, temperature: 0, stream: true, stream_options:
{include_usage: true}}`, with the system prompt as the leading system-role
message followed by the translated history in order. -/
theorem C6_request_shape (options : NousresearchHandlerOptions) (client : Option OpenAIClient)
    (c : OpenAIClient) (hc : ensureClient options client = Except.ok c)
    (models : List (String × ModelInfo)) (defaultId : String) (defaultInfo : ModelInfo)
    (systemPrompt : String) (messages : List MessageParam) (backend : List Chunk) :
    createMessage options client models defaultId defaultInfo systemPrompt messages backend
      = Except.ok
          ({ model := (getModel models defaultId defaultInfo options).1
             messages := { role := "system", content := systemPrompt }
               :: convertToOpenAiMessages messages
             temperature := 0
             stream := true
             include_usage := true }, streamEvents backend) := by
  unfold createMessage
  rw [hc]
  rfl

/-- C6 witness: concrete instantiation with a present API key. -/
theorem C6_request_shape_witness :
    createMessage { nousResearchApiKey := some "key" } none [] "d" {} "sys"
        [{ role := "user", content := "hi" }] []
      = Except.ok
          ({ model := "d"
             messages := [{ role := "system", content := "sys" },
                          { role := "user", content := "hi" }]
             temperature := 0
             stream := true
             include_usage := true }, []) :=
  C6_request_shape { nousResearchApiKey := some "key" } none
    { baseURL := "https://inference-api.nousresearch.com/v1", apiKey := "key" } rfl
    [] "d" {} "sys" [{ role := "user", content := "hi" }] []

/-- C7: evaluation of the `net.ts` module initialization at the failing
input: even in a VSCode-style host (`isVSCode = true`) the code installs
the undici `EnvHttpProxyAgent` as global dispatcher and exports undici's
fetch, never the native global fetch — the VSCode branch is commented out
in the source, contradicting the module's own header documentation. -/
theorem C7_vscode_selection_divergence :
    selectFetch true = { globalDispatcherSet := true, selected := FetchImpl.undici }
    ∧ exportedFetch true ≠ FetchImpl.native := by
  decide

/-- C8: `getAxiosSettings` always returns the fragment
`{adapter: "fetch", fetch: f}` where `f` is the very fetch exported by the
transport module. -/
theorem C8_getAxiosSettings_shape (isVSCode : Bool) :
    getAxiosSettings isVSCode
      = { adapter := some "fetch", fetch := some (exportedFetch isVSCode) } := rfl

/-- C9: `createMessage` is total over malformed chunk shapes at the delta
level: when the choices array is empty or the first choice lacks a delta,
no text or reasoning event is emitted and no error occurs, while a usage
event is still emitted if the same chunk carries usage totals. -/
theorem C9_malformed_delta_total (chunk : Chunk) (h : deltaOf chunk = none) :
    chunkEvents chunk = usageEvents chunk
    ∧ (∀ s, ApiStreamChunk.text s ∉ chunkEvents chunk)
    ∧ (∀ s, ApiStreamChunk.reasoning s ∉ chunkEvents chunk)
    ∧ (∀ u, chunk.usage = some u →
        chunkEvents chunk
          = [ApiStreamChunk.usage (u.prompt_tokens.getD 0) (u.completion_tokens.getD 0)]) := by
  have he : chunkEvents chunk = usageEvents chunk := by
    unfold chunkEvents
    rw [textEvents_delta_none chunk h, reasoningEvents_delta_none chunk h]
    rfl
  refine ⟨he, ?_, ?_, ?_⟩
  · intro s hmem
    rw [he] at hmem
    cases hu : chunk.usage with
    | none => rw [usageEvents_usage_none chunk hu] at hmem; simp at hmem
    | some u => rw [usageEvents_usage_some chunk u hu] at hmem; simp at hmem
  · intro s hmem
    rw [he] at hmem
    cases hu : chunk.usage with
    | none => rw [usageEvents_usage_none chunk hu] at hmem; simp at hmem
    | some u => rw [usageEvents_usage_some chunk u hu] at hmem; simp at hmem
  · intro u hu
    rw [he, usageEvents_usage_some chunk u hu]

/-- C9 witness: a chunk with an empty choices array but usage totals emits
only the usage event and no text event. -/
theorem C9_malformed_delta_total_witness :
    chunkEvents { choices := [], usage := some { prompt_tokens := some 3 } }
      = usageEvents { choices := [], usage := some { prompt_tokens := some 3 } }
    ∧ ApiStreamChunk.text "x" ∉
        chunkEvents { choices := [], usage := some { prompt_tokens := some 3 } }
    ∧ chunkEvents { choices := [], usage := some { prompt_tokens := some 3 } }
      = [ApiStreamChunk.usage 3 0] :=
  ⟨(C9_malformed_delta_total { choices := [], usage := some { prompt_tokens := some 3 } } rfl).1,
   (C9_malformed_delta_total { choices := [], usage := some { prompt_tokens := some 3 } } rfl).2.1 "x",
   (C9_malformed_delta_total { choices := [], usage := some { prompt_tokens := some 3 } } rfl).2.2.2
     { prompt_tokens := some 3 } rfl⟩

/-- C10: within a single chunk carrying more than one payload, events come
in the fixed order text, then reasoning, then usage, for every combination
of two or three payloads. -/
theorem C10_intra_chunk_event_order (chunk : Chunk) (d : Delta)
    (hd : deltaOf chunk = some d) :
    (∀ s r u, d.content = some s → s ≠ "" → d.reasoning_content = some r → r ≠ "" →
        chunk.usage = some u →
        chunkEvents chunk
          = [ApiStreamChunk.text s, ApiStreamChunk.reasoning r,
             ApiStreamChunk.usage (u.prompt_tokens.getD 0) (u.completion_tokens.getD 0)])
    ∧ (∀ s r, d.content = some s → s ≠ "" → d.reasoning_content = some r → r ≠ "" →
        chunk.usage = none →
        chunkEvents chunk = [ApiStreamChunk.text s, ApiStreamChunk.reasoning r])
    ∧ (∀ s u, d.content = some s → s ≠ "" → reasoningEvents chunk = [] →
        chunk.usage = some u →
        chunkEvents chunk
          = [ApiStreamChunk.text s,
             ApiStreamChunk.usage (u.prompt_tokens.getD 0) (u.completion_tokens.getD 0)])
    ∧ (∀ r u, textEvents chunk = [] → d.reasoning_content = some r → r ≠ "" →
        chunk.usage = some u →
        chunkEvents chunk
          = [ApiStreamChunk.reasoning r,
             ApiStreamChunk.usage (u.prompt_tokens.getD 0) (u.completion_tokens.getD 0)]) := by
  refine ⟨?_, ?_, ?_, ?_⟩
  · intro s r u hs hsne hr hrne hu
    simp [chunkEvents, textEvents_delta_some chunk d hd, reasoningEvents_delta_some chunk d hd,
          usageEvents_usage_some chunk u hu, hs, hr, hsne, hrne]
  · intro s r hs hsne hr hrne hu
    simp [chunkEvents, textEvents_delta_some chunk d hd, reasoningEvents_delta_some chunk d hd,
          usageEvents_usage_none chunk hu, hs, hr, hsne, hrne]
  · intro s u hs hsne hre hu
    simp [chunkEvents, textEvents_delta_some chunk d hd, hre,
          usageEvents_usage_some chunk u hu, hs, hsne]
  · intro r u hte hr hrne hu
    simp [chunkEvents, hte, reasoningEvents_delta_some chunk d hd,
          usageEvents_usage_some chunk u hu, hr, hrne]

/-- C10 witness: a chunk carrying all three payloads yields text, then
reasoning, then usage. -/
theorem C10_intra_chunk_event_order_witness :
    chunkEvents
        { choices := [{ delta := some { content := some "He", reasoning_content := some "why" } }],
          usage := some { prompt_tokens := some 5, completion_tokens := some 2 } }
      = [ApiStreamChunk.text "He", ApiStreamChunk.reasoning "why", ApiStreamChunk.usage 5 2] :=
  (C10_intra_chunk_event_order
      { choices := [{ delta := some { content := some "He", reasoning_content := some "why" } }],
        usage := some { prompt_tokens := some 5, completion_tokens := some 2 } }
      { content := some "He", reasoning_content := some "why" } rfl).1
    "He" "why" { prompt_tokens := some 5, completion_tokens := some 2 }
    rfl (by decide) rfl (by decide) rfl

end Cline
